import Mathlib

/-!
Verification of the threatveil backend core against its specification.

The Python backend is shallowly embedded: pure functions become Lean
functions over an explicit data model; machine floats are modelled by
exact rationals (every constant in the scoring and likelihood paths is a
small decimal, so exact arithmetic matches the intended real-number
semantics); fallible probe calls become `Except` values threaded in as
inputs; `datetime` values are modelled as integer timestamps in seconds.
-/

/-! ## Basic helpers: Python rounding and string utilities -/

/-- Model of Python `round(q)` on exact values: round half to even
(round half to even ties), as CPython does for floats. -/
def pythonRound (q : ℚ) : ℤ :=
  let f := ⌊q⌋
  let r := q - f
  if r < 1/2 then f
  else if r > 1/2 then f + 1
  else if f % 2 = 0 then f else f + 1

/-- Model of Python `round(q, 2)`: round to two decimal places. -/
def roundTo2 (q : ℚ) : ℚ := (pythonRound (q * 100) : ℚ) / 100

/-- Model of `str.lower` on the character list (ASCII lowering, which is
all the code relies on: the compared keywords are ASCII). -/
def lowerList (l : List Char) : List Char := l.map Char.toLower

/-- Model of `str.lower` at `String` level. -/
def lowerStr (s : String) : String := ⟨lowerList s.data⟩

/-- Does `hay` start with `needle`? (helper for substring search). -/
def listStartsWith : List Char → List Char → Bool
  | _, [] => true
  | [], _ :: _ => false
  | a :: as, b :: bs => a == b && listStartsWith as bs

/-- Model of Python `needle in hay` for strings: contiguous substring. -/
def listContainsSub : List Char → List Char → Bool
  | [], needle => needle.isEmpty
  | a :: rest, needle => listStartsWith (a :: rest) needle || listContainsSub rest needle

/-! ## Data model (backend/schemas.py, legacy Signal schema)

`Severity`, `LegacyCategory`, `SignalType` are the `Literal` string
enumerations of `schemas.py`; `Evidence`/`Signal` are the legacy Pydantic
models used throughout the scan pipeline. -/

inductive Severity
  | low
  | medium
  | high
  | critical
deriving DecidableEq, Repr

inductive Category
  | network
  | software
  | data_exposure
  | ai_integration
deriving DecidableEq, Repr

/-- The string value each `LegacyCategory` literal carries in Python. -/
def categoryName : Category → String
  | .network => "network"
  | .software => "software"
  | .data_exposure => "data_exposure"
  | .ai_integration => "ai_integration"

inductive SignalType
  | http
  | tls
  | dns
  | ct
  | cve
  | github
  | otx
  | ai_guard
  | config
  | secret
  | network
deriving DecidableEq, Repr

/-- Legacy evidence schema: `source, observed_at, url?, raw`.
`observed_at` is a UTC timestamp in seconds; `raw` is a string-keyed
dictionary modelled as an association list. -/
structure Evidence where
  source : String
  observed_at : ℤ
  url : Option String
  raw : List (String × String)
deriving DecidableEq, Repr

/-- Legacy signal schema: `id, type, detail, severity, category, evidence`. -/
structure Signal where
  id : String
  type : SignalType
  detail : String
  severity : Severity
  category : Category
  evidence : Evidence
deriving DecidableEq, Repr

/-! ## Scoring (backend/scoring.py) -/

/-- `SEVERITY_POINTS = {"low": 5, "medium": 15, "high": 30, "critical": 50}` -/
def SEVERITY_POINTS : Severity → ℕ
  | .low => 5
  | .medium => 15
  | .high => 30
  | .critical => 50

/-- `CATEGORY_WEIGHTS = {"network": 0.4, "software": 0.35, "data_exposure": 0.2, "ai_integration": 0.05}` -/
def CATEGORY_WEIGHTS : Category → ℚ
  | .network => 4/10
  | .software => 35/100
  | .data_exposure => 2/10
  | .ai_integration => 5/100

/-- Iteration order of the `CATEGORY_WEIGHTS` dict (insertion order). -/
def CATEGORY_ORDER : List Category :=
  [.network, .software, .data_exposure, .ai_integration]

/-- `_severity_from_score` from scoring.py. -/
def severity_from_score (score : ℕ) : Severity :=
  if score ≥ 70 then .high
  else if score ≥ 40 then .medium
  else .low

/-- `CategoryScore(score=..., weight=..., severity=...)`. -/
structure CategoryScore where
  score : ℕ
  weight : ℚ
  severity : Severity
deriving DecidableEq, Repr

/-- One step of the `for signal in signals` accumulation loop:
`category_points[signal.category] += SEVERITY_POINTS[signal.severity]`. -/
def accumulate_points (acc : Category → ℕ) (s : Signal) : Category → ℕ :=
  fun c => if c = s.category then acc c + SEVERITY_POINTS s.severity else acc c

/-- The `category_points` dict after the first loop of `score_signals`. -/
def category_points (signals : List Signal) : Category → ℕ :=
  signals.foldl accumulate_points (fun _ => 0)

/-- `score_signals` from scoring.py: per-category accumulation, clamp to
100, label, weighted total, Python rounding, clamp to 100. -/
def score_signals (signals : List Signal) : ℤ × List (Category × CategoryScore) :=
  let pts := category_points signals
  let step := fun (st : List (Category × CategoryScore) × ℚ) (c : Category) =>
    let raw := pts c
    let normalized := min 100 raw
    let severity := severity_from_score normalized
    (st.1 ++ [(c, ⟨normalized, CATEGORY_WEIGHTS c, severity⟩)],
     st.2 + (normalized : ℚ) * CATEGORY_WEIGHTS c)
  let res := CATEGORY_ORDER.foldl step (([], 0) : List (Category × CategoryScore) × ℚ)
  (min 100 (pythonRound res.2), res.1)

/-! ## Likelihood estimation (backend/services/ml_service.py) -/

/-- The `severity_weights` dict literal in `estimate_likelihoods`. -/
def severity_weights : List (Severity × ℚ) :=
  [(.high, 2/10), (.medium, 1/10), (.low, 5/100)]

/-- `severity_weights.get(severity, 0)`. -/
def severity_weight_of (s : Severity) : ℚ :=
  match severity_weights.find? (fun p => decide (p.1 = s)) with
  | some p => p.2
  | none => 0

/-- `estimate_likelihoods` from ml_service.py: severity-weighted sum,
clamp to 1, then report `round(min(1, score + 0.05), 2)` as 30d and
`round(min(1, score + 0.15), 2)` as 90d. -/
def estimate_likelihoods (signals : List Signal) : ℚ × ℚ :=
  let score := signals.foldl (fun acc s => acc + severity_weight_of s.severity) 0
  let score := min 1 score
  (roundTo2 (min 1 (score + 5/100)), roundTo2 (min 1 (score + 15/100)))

/-! ## Signal factory (backend/services/signal_factory.py) -/

/-- A caught Python exception: `str(e)` and `type(e).__name__`. -/
structure ProbeError where
  message : String
  error_type : String
deriving DecidableEq, Repr

/-- `make_signal` from signal_factory.py: builds the canonical legacy
Signal with its evidence envelope; `observed_at` is the current time,
passed explicitly here. -/
def make_signal (signal_id : String) (signal_type : SignalType) (detail : String)
    (severity : Severity) (category : Category) (source : String)
    (url : Option String) (raw : List (String × String)) (observed_at : ℤ) : Signal :=
  { id := signal_id
    type := signal_type
    detail := detail
    severity := severity
    category := category
    evidence := { source := source, observed_at := observed_at, url := url, raw := raw } }

/-- The `friendly_messages` dict in `make_service_error_signal`. -/
def friendly_messages : List (String × String) :=
  [("DNS", "DNS lookup failed, results may be incomplete."),
   ("HTTP", "HTTP security check failed, results may be incomplete."),
   ("TLS", "TLS certificate check failed, results may be incomplete."),
   ("CT", "Certificate transparency log check failed, results may be incomplete."),
   ("OTX", "Threat intelligence enrichment unavailable, results may be incomplete."),
   ("CVE", "Vulnerability database check failed, results may be incomplete."),
   ("NVD", "NVD vulnerability database check failed, results may be incomplete."),
   ("GitHub", "GitHub code search unavailable, results may be incomplete.")]

/-- `dict.get(key, default)` over an association list. -/
def dict_get (d : List (String × String)) (k : String) (default : String) : String :=
  match d.find? (fun p => decide (p.1 = k)) with
  | some p => p.2
  | none => default

/-- `make_service_error_signal` from signal_factory.py. The `category`
parameter defaults to `"network"` in Python; every caller passes it
explicitly. -/
def make_service_error_signal (service_name : String) (error : ProbeError)
    (category : Category) (observed_at : ℤ) : Signal :=
  let detail := dict_get friendly_messages service_name
    (service_name ++ " service failed, results may be incomplete.")
  make_signal ("service_" ++ lowerStr service_name ++ "_failure") .ai_guard detail
    .low category (lowerStr service_name) none
    [("error", error.message), ("error_type", error.error_type), ("service", service_name)]
    observed_at

/-! ## Scan orchestrator error shields (backend/routes/scan.py)

Each `_safe_fetch_*` wrapper runs its probe inside `try/except` and, on
any exception, returns empty metadata plus one service-error Signal.
The probe call itself is network I/O; it is embedded as an `Except`
input: `.ok` is a normal return, `.error` a raised exception. -/

/-- Generic shape shared by the wrappers that return `(metadata, signals)`. -/
def safe_fetch_probe (result : Except ProbeError (List (String × String) × List Signal))
    (service_name : String) (category : Category) (now : ℤ) :
    List (String × String) × List Signal :=
  match result with
  | .ok r => r
  | .error e => ([], [make_service_error_signal service_name e category now])

/-- `_safe_fetch_dns`. -/
def safe_fetch_dns (result : Except ProbeError (List (String × String) × List Signal))
    (now : ℤ) : List (String × String) × List Signal :=
  safe_fetch_probe result "DNS" .network now

/-- `_safe_fetch_http`: also returns the tech-fingerprint token list,
empty on error. -/
def safe_fetch_http
    (result : Except ProbeError (List (String × String) × List Signal × List String))
    (now : ℤ) : List (String × String) × List Signal × List String :=
  match result with
  | .ok r => r
  | .error e => ([], [make_service_error_signal "HTTP" e .network now], [])

/-- `_safe_fetch_tls`. -/
def safe_fetch_tls (result : Except ProbeError (List (String × String) × List Signal))
    (now : ℤ) : List (String × String) × List Signal :=
  safe_fetch_probe result "TLS" .network now

/-- `_safe_fetch_ct`. -/
def safe_fetch_ct (result : Except ProbeError (List (String × String) × List Signal))
    (now : ℤ) : List (String × String) × List Signal :=
  safe_fetch_probe result "CT" .network now

/-- `_safe_fetch_otx`. -/
def safe_fetch_otx (result : Except ProbeError (List (String × String) × List Signal))
    (now : ℤ) : List (String × String) × List Signal :=
  safe_fetch_probe result "OTX" .network now

/-- `_safe_fetch_cves`: early-returns empty on an empty token list. -/
def safe_fetch_cves (tokens : List String)
    (result : Except ProbeError (List (String × String) × List Signal))
    (now : ℤ) : List (String × String) × List Signal :=
  if tokens.isEmpty then ([], [])
  else
    match result with
    | .ok r => r
    | .error e => ([], [make_service_error_signal "CVE" e .software now])

/-- `_safe_fetch_github`: early-returns empty on an empty org. -/
def safe_fetch_github (org : String)
    (result : Except ProbeError (List (String × String) × List Signal))
    (now : ℤ) : List (String × String) × List Signal :=
  if org = "" then ([], [])
  else
    match result with
    | .ok r => r
    | .error e => ([], [make_service_error_signal "GitHub" e .ai_integration now])

/-- The synthetic Signal appended by `scan_vendor` when the merged signal
list is empty. -/
def no_findings_signal (now : ℤ) : Signal :=
  make_signal "scan_completed_no_findings" .ai_guard
    "Scan completed with no critical findings" .low .software "system" none [] now

/-- The `if not all_signals: all_signals.append(...)` step of `scan_vendor`. -/
def finalize_signals (all_signals : List Signal) (now : ℤ) : List Signal :=
  if all_signals.isEmpty then all_signals ++ [no_findings_signal now] else all_signals

/-! ## TLS probe (backend/services/tls_service.py) -/

/-- The parsed peer certificate, as used by `fetch_tls_metadata`.
`notAfter` is the expiry timestamp in seconds (absent if the certificate
carries no `notAfter` field). -/
structure TlsCert where
  issuer : String
  subject : String
  subjectAltName : List String
  notAfter : Option ℤ
deriving DecidableEq, Repr

/-- The metadata dict built by `fetch_tls_metadata` (empty on failure). -/
structure TlsMetadata where
  issuer : Option String
  subject : Option String
  subjectAltName : Option (List String)
  notAfter : Option ℤ
  days_to_expiry : Option ℤ
deriving DecidableEq, Repr

/-- The empty metadata dict. -/
def empty_tls_metadata : TlsMetadata := ⟨none, none, none, none, none⟩

/-- `fetch_tls_metadata` from tls_service.py. The SSL connection and
certificate parse are embedded as an `Except` input; `days` is
`(expiry - now).days`, i.e. floor division of the difference in seconds
by 86400 as for Python `timedelta.days`. -/
def fetch_tls_metadata (domain : String) (conn : Except ProbeError TlsCert)
    (now : ℤ) : TlsMetadata × List Signal :=
  match conn with
  | .error _ =>
      (empty_tls_metadata,
       [make_signal "tls_unreachable" .tls "Unable to obtain TLS certificate"
          .high .network "tls" (some ("https://" ++ domain)) [] now])
  | .ok cert =>
      let base : TlsMetadata :=
        { issuer := some cert.issuer
          subject := some cert.subject
          subjectAltName := some cert.subjectAltName
          notAfter := cert.notAfter
          days_to_expiry := none }
      match cert.notAfter with
      | none => (base, [])
      | some expiry =>
          let days := Int.fdiv (expiry - now) 86400
          let meta := { base with days_to_expiry := some days }
          if days < 30 then
            (meta,
             [make_signal "tls_expiring_soon" .tls
                "TLS certificate expires within 30 days" .high .network "tls"
                (some ("https://" ++ domain)) [("days_remaining", toString days)] now])
          else (meta, [])

/-! ## Decision engine (backend/routes/decisions.py) -/

/-- One entry of `DECISION_TEMPLATES` plus its `action_id`. -/
structure DecisionTemplate where
  action_id : String
  title : String
  recommended_fix : String
  effort_estimate : String
  estimated_risk_reduction : ℕ
  priority : ℕ
deriving DecidableEq, Repr

/-- `DECISION_TEMPLATES["key-rotation"]`. -/
def key_rotation_template : DecisionTemplate :=
  { action_id := "key-rotation"
    title := "Rotate Exposed Credentials"
    recommended_fix := "Immediately rotate all exposed API keys and secrets. Revoke old credentials and audit access logs for unauthorized usage."
    effort_estimate := "1 hour"
    estimated_risk_reduction := 25
    priority := 1 }

/-- `DECISION_TEMPLATES["patch-cves"]`. -/
def patch_cves_template : DecisionTemplate :=
  { action_id := "patch-cves"
    title := "Patch Critical Vulnerabilities"
    recommended_fix := "Apply vendor patches for detected CVEs. Prioritize high-severity vulnerabilities with known exploits."
    effort_estimate := "2-4 hours"
    estimated_risk_reduction := 20
    priority := 2 }

/-- `DECISION_TEMPLATES["review-agents"]`. -/
def review_agents_template : DecisionTemplate :=
  { action_id := "review-agents"
    title := "Review Agent Access Controls"
    recommended_fix := "Audit exposed agentic frameworks. Restrict access permissions and ensure agents operate with minimal privileges."
    effort_estimate := "2 hours"
    estimated_risk_reduction := 15
    priority := 3 }

/-- `DECISION_TEMPLATES["audit-data"]`. -/
def audit_data_template : DecisionTemplate :=
  { action_id := "audit-data"
    title := "Audit Data Access Policies"
    recommended_fix := "Review data exposure signals. Implement proper access controls and audit data handling procedures."
    effort_estimate := "1-2 hours"
    estimated_risk_reduction := 15
    priority := 4 }

/-- `DECISION_TEMPLATES["update-tls"]`. -/
def update_tls_template : DecisionTemplate :=
  { action_id := "update-tls"
    title := "Update Certificate Configuration"
    recommended_fix := "Update TLS certificates and configuration. Ensure modern cipher suites and proper certificate chain."
    effort_estimate := "30 mins"
    estimated_risk_reduction := 10
    priority := 5 }

/-- `DECISION_TEMPLATES["review-network"]`. -/
def review_network_template : DecisionTemplate :=
  { action_id := "review-network"
    title := "Review Network Exposure"
    recommended_fix := "Audit external network exposure. Close unnecessary ports and restrict access to internal services."
    effort_estimate := "1 hour"
    estimated_risk_reduction := 10
    priority := 6 }

/-- `DECISION_TEMPLATES["audit-ai-tools"]`. -/
def audit_ai_tools_template : DecisionTemplate :=
  { action_id := "audit-ai-tools"
    title := "Audit AI Tool Usage"
    recommended_fix := "Review detected AI tools for data handling compliance. Maintain inventory of approved tools."
    effort_estimate := "1 hour"
    estimated_risk_reduction := 5
    priority := 7 }

/-- The `agent_keywords` list used by decision generation. -/
def agent_keywords : List String :=
  ["langchain", "crewai", "autogen", "langgraph", "agent"]

/-- `any(kw in t.lower() for kw in agent_keywords)`. -/
def is_agent_tool (t : String) : Bool :=
  agent_keywords.any (fun kw => listContainsSub (lowerList t.data) kw.data)

/-- Stable insertion into a priority-sorted list (equal keys keep their
relative order, as with Python `sorted`). -/
def insert_by_priority (d : DecisionTemplate) : List DecisionTemplate → List DecisionTemplate
  | [] => [d]
  | e :: rest =>
      if d.priority < e.priority then d :: e :: rest else e :: insert_by_priority d rest

/-- Stable sort by priority, modelling `sorted(decisions, key=priority)`. -/
def sort_by_priority : List DecisionTemplate → List DecisionTemplate
  | [] => []
  | d :: rest => insert_by_priority d (sort_by_priority rest)

/-- `generate_decisions_for_scan` from decisions.py: the seven fixed
rules applied in order, then `sorted(..., key=priority)[:3]`.
`signals` is `scan.signals_json`, `ai_keys`/`ai_tools` come from the
ScanAI row (empty lists when it is absent, as in the Python guards). -/
def generate_decisions_for_scan (signals : List Signal)
    (ai_keys ai_tools : List String) : List DecisionTemplate :=
  let decisions : List DecisionTemplate := []
  let decisions := if 0 < ai_keys.length then decisions ++ [key_rotation_template] else decisions
  let high_cves := signals.filter (fun s =>
    decide (s.category = .software) && decide (s.severity = .high))
  let decisions := if 0 < high_cves.length then decisions ++ [patch_cves_template] else decisions
  let ai_agents := ai_tools.filter is_agent_tool
  let decisions := if 0 < ai_agents.length then decisions ++ [review_agents_template] else decisions
  let data_exposure := signals.filter (fun s => decide (s.category = .data_exposure))
  let decisions := if 0 < data_exposure.length then decisions ++ [audit_data_template] else decisions
  let tls_issues := signals.filter (fun s =>
    decide (s.evidence.source = "tls") &&
      (decide (s.severity = .high) || decide (s.severity = .medium)))
  let decisions := if 0 < tls_issues.length then decisions ++ [update_tls_template] else decisions
  let network_issues := signals.filter (fun s =>
    decide (s.category = .network) && !(decide (s.severity = .low)))
  let decisions :=
    if 0 < network_issues.length ∧ decisions.length < 3
    then decisions ++ [review_network_template] else decisions
  let decisions :=
    if 0 < ai_tools.length ∧ decisions.length < 3
    then decisions ++ [audit_ai_tools_template] else decisions
  (sort_by_priority decisions).take 3

/-- A persisted `SecurityDecision` row as created by the
`POST /scans/.../decisions` route. -/
structure PersistedDecision where
  action_id : String
  title : String
  recommended_fix : String
  effort_estimate : String
  estimated_risk_reduction : ℕ
  priority : ℕ
  status : String
  before_score : ℤ
deriving DecidableEq, Repr

/-- The persistence step of `generate_decisions`: each generated template
becomes a SecurityDecision with `status="pending"` and
`before_score=scan.risk_score`. -/
def persist_decision (risk_score : ℤ) (t : DecisionTemplate) : PersistedDecision :=
  { action_id := t.action_id
    title := t.title
    recommended_fix := t.recommended_fix
    effort_estimate := t.effort_estimate
    estimated_risk_reduction := t.estimated_risk_reduction
    priority := t.priority
    status := "pending"
    before_score := risk_score }

/-- `generate_decisions` (the route, fresh-generation path): generate and
persist. -/
def generate_decisions (signals : List Signal) (ai_keys ai_tools : List String)
    (risk_score : ℤ) : List PersistedDecision :=
  (generate_decisions_for_scan signals ai_keys ai_tools).map (persist_decision risk_score)

/-! ## Decision lifecycle (backend/routes/decisions.py, PATCH route) -/

/-- `SecurityDecision.status` values. -/
inductive DStatus
  | pending
  | accepted
  | in_progress
  | resolved
  | verified
  | rejected
deriving DecidableEq, Repr

/-- The `valid_statuses` list of the PATCH route. -/
def valid_statuses : List DStatus :=
  [.pending, .accepted, .in_progress, .resolved, .verified]

/-- The status-transition guard of `update_decision_status`: reject
unknown statuses (400) and reject `verified` unless the current status is
`resolved` (400); otherwise the new status is stored. -/
def update_decision_status (current : DStatus) (requested : DStatus) :
    Except String DStatus :=
  if requested ∉ valid_statuses then .error "Invalid status"
  else if requested = .verified ∧ current ≠ .resolved then
    .error "Decision must be resolved before it can be verified"
  else .ok requested

/-! ## Impact service (backend/services/impact_service.py) -/

/-- `calculate_confidence`: `after_scan` is the creation timestamp of the
scan found after resolution (absent when none exists);
`signal_disappeared` is the result of `_check_signal_disappeared`.
`days_since_resolution` is `(scan_date - resolved_at).days`. -/
def calculate_confidence (after_scan : Option ℤ) (resolved_at : ℤ)
    (signal_disappeared : Bool) : ℚ × Option String :=
  match after_scan with
  | none => (2/10, some "No scan after resolution - run a new scan to measure impact")
  | some scan_date =>
      let days_since_resolution := Int.fdiv (scan_date - resolved_at) 86400
      if days_since_resolution > 7 then
        (4/10, some "After-scan is days old - run a fresh scan for higher confidence")
      else if signal_disappeared then (1, none)
      else (7/10, some "Signal presence unchanged or unknown")

/-! ## Verification engine (backend/services/verification_engine.py)

The verification rules mix pure signal comparisons with live re-probes.
The scan-recency and resolution facts consumed by
`calculate_confidence_tier` are collected in `TierContext`. Only the
rules needed by the claims are embedded: `update-tls`, `patch-cves`,
`audit-data`, `review-network`, plus the no-rule fallback of
`run_verification`. The `update-tls` rule calls `tls_service.check_tls`,
a function tls_service.py never defines, so in the program that call
raises `AttributeError` on every invocation and the rule always lands in
its `except` branch. -/

/-- Verification outcome: `"pass" | "fail" | "unknown"`. -/
inductive VerifResult
  | pass
  | fail
  | unknown
deriving DecidableEq, Repr

/-- Inputs of `calculate_confidence_tier`: whether a latest scan exists,
whether `decision.resolved_at` is set, and whether the scan is within 7
days (`scan_age <= timedelta(days=7)`). -/
structure TierContext where
  has_latest_scan : Bool
  resolved : Bool
  is_recent : Bool
deriving DecidableEq, Repr

/-- `calculate_confidence_tier` from verification_engine.py. -/
def calculate_confidence_tier (t : TierContext) (signal_gone : Bool) : ℚ × String :=
  if !t.has_latest_scan then (2/10, "Very Low: No scan after resolution")
  else if !t.resolved then (2/10, "Very Low: Decision not yet resolved")
  else if t.is_recent && signal_gone then
    (1, "High: Recent scan confirms signal is resolved")
  else if t.is_recent && !signal_gone then
    (7/10, "Medium: Recent scan but signal status unclear")
  else if signal_gone then (4/10, "Low: Signal resolved but scan is older than 7 days")
  else (4/10, "Low: Unable to confirm resolution")

/-- `verify_tls_fixed`: result and confidence. With no scan or domain it
returns ("unknown", 0.2); otherwise it calls `tls_service.check_tls`,
which does not exist (tls_service.py defines only `_sync_fetch` and
`fetch_tls_metadata`), so the attribute lookup raises `AttributeError`,
the `except` handler catches it, and the rule returns ("unknown", 0.2)
as well. The pass (tier or 0.6) and fail (0.9) branches after the call
are unreachable and are therefore not part of the embedding. -/
def verify_tls_fixed (has_domain : Bool) : VerifResult × ℚ :=
  if !has_domain then (.unknown, 2/10)
  else (.unknown, 2/10)

/-- The CVE-signal filter of `verify_cve_patched`:
`s.get("type") == "cve" or "CVE-" in s.get("detail", "")`. -/
def is_cve_signal (s : Signal) : Bool :=
  decide (s.type = .cve) || listContainsSub s.detail.data "CVE-".data

/-- `verify_cve_patched`: compares CVE-signal counts between the
originating scan and the latest scan (`none` when no latest scan). -/
def verify_cve_patched (t : TierContext) (latest_scan : Option (List Signal))
    (original_signals : List Signal) : VerifResult × ℚ :=
  match latest_scan with
  | none => (.unknown, 2/10)
  | some latest =>
      let original_count := (original_signals.filter is_cve_signal).length
      let current_count := (latest.filter is_cve_signal).length
      if current_count = 0 ∧ original_count > 0 then
        (.pass, (calculate_confidence_tier t true).1)
      else if current_count < original_count then (.pass, 7/10)
      else (.fail, 8/10)

/-- `verify_data_exposure`: compares `category == "data_exposure"` signal
counts. -/
def verify_data_exposure (t : TierContext) (latest_scan : Option (List Signal))
    (original_signals : List Signal) : VerifResult × ℚ :=
  match latest_scan with
  | none => (.unknown, 2/10)
  | some latest =>
      let before := (original_signals.filter (fun s => decide (s.category = .data_exposure))).length
      let after := (latest.filter (fun s => decide (s.category = .data_exposure))).length
      if after < before then (.pass, (calculate_confidence_tier t true).1)
      else if after = 0 then (.pass, 9/10)
      else (.fail, 7/10)

/-- `verify_network_issues`: compares non-low network signal counts. -/
def verify_network_issues (t : TierContext) (latest_scan : Option (List Signal))
    (original_signals : List Signal) : VerifResult × ℚ :=
  match latest_scan with
  | none => (.unknown, 2/10)
  | some latest =>
      let p := fun (s : Signal) => decide (s.category = .network) && !(decide (s.severity = .low))
      let before := (original_signals.filter p).length
      let after := (latest.filter p).length
      if after < before then (.pass, (calculate_confidence_tier t true).1)
      else if after = 0 then (.pass, 9/10)
      else (.fail, 7/10)

/-- The verification rules embedded here, plus the no-rule fallback of
`run_verification` (an `action_id` absent from `VERIFICATION_RULES`). -/
inductive VerifAction
  | update_tls
  | patch_cves
  | audit_data
  | review_network
  | no_rule
deriving DecidableEq, Repr

/-- The probe data consumed by the embedded verification rules. -/
structure VerifContext where
  tier : TierContext
  has_domain : Bool
  latest_scan_signals : Option (List Signal)
  original_signals : List Signal
deriving Repr

/-- Rule dispatch inside `run_verification` (`VERIFICATION_RULES.get`),
returning the rule result and confidence; an unmapped action yields
`("unknown", 0.4)` as in the `if not verify_func` branch. -/
def dispatch_verification (action : VerifAction) (v : VerifContext) : VerifResult × ℚ :=
  match action with
  | .update_tls => verify_tls_fixed v.has_domain
  | .patch_cves => verify_cve_patched v.tier v.latest_scan_signals v.original_signals
  | .audit_data => verify_data_exposure v.tier v.latest_scan_signals v.original_signals
  | .review_network => verify_network_issues v.tier v.latest_scan_signals v.original_signals
  | .no_rule => (.unknown, 4/10)

/-- The fields of a `SecurityDecision` touched by the status-update block
of `run_verification`. -/
structure DecisionState where
  status : DStatus
  verified_at : Option ℤ
  verification_status : Option String
  confidence_score : Option ℚ
deriving DecidableEq, Repr

/-- The status-update block at the end of `run_verification`: on a pass
result the decision status is set to `verified` (with no check of the
current status); on fail/unknown only `verification_status` changes. -/
def run_verification_update (d : DecisionState) (result : VerifResult)
    (confidence : ℚ) (now : ℤ) : DecisionState :=
  match result with
  | .pass =>
      { d with status := .verified, verified_at := some now,
               verification_status := some "pass", confidence_score := some confidence }
  | .fail => { d with verification_status := some "fail" }
  | .unknown => { d with verification_status := some "unknown" }

/-- `run_verification` restricted to the embedded rules: dispatch the
rule, then apply the status-update block to the decision. -/
def run_verification (d : DecisionState) (action : VerifAction)
    (v : VerifContext) (now : ℤ) : DecisionState × VerifResult × ℚ :=
  let rc := dispatch_verification action v
  (run_verification_update d rc.1 rc.2 now, rc)

/-! ## Auto-verification (backend/services/verification_service.py) -/

/-- The per-decision body of the loop in `auto_verify_decisions_for_scan`:
only decisions that passed the query filter (`status = resolved` and
`verified_at` null) are considered; a decision resolved after the scan is
skipped; otherwise it is advanced to `verified` exactly when
`_check_signal_resolved` says the triggering signal is gone. -/
def auto_verify_decision (status : DStatus) (verified_at : Option ℤ)
    (resolved_at : Option ℤ) (scan_created_at : ℤ) (signal_gone : Bool) : DStatus :=
  if status = .resolved ∧ verified_at = none then
    match resolved_at with
    | some r =>
        if r > scan_created_at then status
        else if signal_gone then .verified else status
    | none => if signal_gone then .verified else status
  else status

/-! ## Webhook dispatcher (backend/services/webhook_service.py) -/

/-- The webhook fields consumed by `emit_event`. -/
structure Webhook where
  url : String
  enabled : Bool
  events : List String
deriving DecidableEq, Repr

/-- A `WebhookDelivery` record as returned by `deliver_webhook`. -/
structure WebhookDelivery where
  webhook_url : String
  event_type : String
  status : String
deriving DecidableEq, Repr

/-- `emit_event`: query the enabled webhooks of the organization, then for
each one subscribed to the event attempt delivery, collecting the
delivery records; an exception from `deliver_webhook` is caught and
logged, and the loop continues. The delivery itself (HTTP with retries)
is embedded as a function argument whose `.error` case is a raised
exception. -/
def emit_event (webhooks : List Webhook) (event_type : String)
    (deliver : Webhook → Except ProbeError WebhookDelivery) : List WebhookDelivery :=
  let enabled_hooks := webhooks.filter (fun w => w.enabled)
  enabled_hooks.foldl
    (fun deliveries w =>
      if event_type ∈ w.events then
        match deliver w with
        | .ok d => deliveries ++ [d]
        | .error _ => deliveries
      else deliveries)
    []

/-! ## Claim-side definitions

Definitions in this section follow the wording of the specification and
claims (not the source); the theorems below compare them with the
source-side embeddings above. -/

/-- Spec §4.5: per-signal points summed per category. -/
def spec_category_points (signals : List Signal) (c : Category) : ℕ :=
  ((signals.filter (fun s => decide (s.category = c))).map
    (fun s => SEVERITY_POINTS s.severity)).sum

/-- Spec §4.5: the default category weights named in the claim. -/
def spec_weight : Category → ℚ
  | .network => 4/10
  | .software => 35/100
  | .data_exposure => 2/10
  | .ai_integration => 5/100

/-- Spec §4.5: label from the clamped sum: at least 70 high, at least 40
medium, else low. -/
def spec_label (n : ℕ) : Severity :=
  if 70 ≤ n then .high else if 40 ≤ n then .medium else .low

/-- Spec §4.5: the per-category score entry the claim describes. -/
def spec_category_score (signals : List Signal) (c : Category) : CategoryScore :=
  { score := min 100 (spec_category_points signals c)
    weight := spec_weight c
    severity := spec_label (min 100 (spec_category_points signals c)) }

/-- Spec §4.5: aggregate = round of the weighted sum of clamped category
sums, clamped to 100. -/
def spec_aggregate (signals : List Signal) : ℤ :=
  min 100 (pythonRound
    ((CATEGORY_ORDER.map
      (fun c => (min 100 (spec_category_points signals c) : ℚ) * spec_weight c)).sum))

/-- Spec §4.6: the per-signal likelihood weights of the claim (low 0.05,
medium 0.10, high 0.20; no weight listed for critical). -/
def spec_severity_weight : Severity → ℚ
  | .low => 5/100
  | .medium => 1/10
  | .high => 2/10
  | .critical => 0

/-- Spec §4.6 and claim C2: 30d likelihood = severity-weighted sum
clamped to 1.0. -/
def spec_likelihood_30d (signals : List Signal) : ℚ :=
  min 1 ((signals.map (fun s => spec_severity_weight s.severity)).sum)

/-- Spec §4.7 and claim C3: the four confidence tiers. -/
def InTierSet (q : ℚ) : Prop :=
  q = 2/10 ∨ q = 4/10 ∨ q = 7/10 ∨ q = 1

/-- The confidence values the embedded verification rules can actually
produce (the four tiers plus the hard-coded 0.8 and 0.9). -/
def InVerifConfSet (q : ℚ) : Prop :=
  InTierSet q ∨ q = 8/10 ∨ q = 9/10

/-- Rationals of the form k/20 with natural k: every severity weight in
the likelihood estimator is one, and round-to-2-decimals is the identity
on them. -/
def IsTwentieth (q : ℚ) : Prop := ∃ k : ℕ, q = (k : ℚ)/20

/-- The decision-rule construction parameterized over the seven trigger
booleans exactly as the source sequences it (appends in rule order with
the count guards on rules 6 and 7, then sort and take 3). -/
def source_build (b1 b2 b3 b4 b5 b6 b7 : Bool) : List DecisionTemplate :=
  let ds : List DecisionTemplate := []
  let ds := if b1 then ds ++ [key_rotation_template] else ds
  let ds := if b2 then ds ++ [patch_cves_template] else ds
  let ds := if b3 then ds ++ [review_agents_template] else ds
  let ds := if b4 then ds ++ [audit_data_template] else ds
  let ds := if b5 then ds ++ [update_tls_template] else ds
  let ds := if b6 && decide (ds.length < 3) then ds ++ [review_network_template] else ds
  let ds := if b7 && decide (ds.length < 3) then ds ++ [audit_ai_tools_template] else ds
  (sort_by_priority ds).take 3

/-- The decision-rule construction as claim C5 words it: the candidate
list is assembled in ascending priority order (rules 6 and 7 firing only
when fewer than 3 candidates exist so far) and the output is its first 3
elements. -/
def claim_build (b1 b2 b3 b4 b5 b6 b7 : Bool) : List DecisionTemplate :=
  let base :=
    (if b1 then [key_rotation_template] else []) ++
    (if b2 then [patch_cves_template] else []) ++
    (if b3 then [review_agents_template] else []) ++
    (if b4 then [audit_data_template] else []) ++
    (if b5 then [update_tls_template] else [])
  let with6 := base ++ (if b6 && decide (base.length < 3) then [review_network_template] else [])
  let full := with6 ++ (if b7 && decide (with6.length < 3) then [audit_ai_tools_template] else [])
  full.take 3

/-- Claim C5, trigger of rule p2: any category=software severity=high Signal. -/
def spec_trig_patch_cves (signals : List Signal) : Bool :=
  signals.any (fun s => decide (s.category = .software) && decide (s.severity = .high))

/-- Claim C5, trigger of rule p4: any data_exposure Signal. -/
def spec_trig_audit_data (signals : List Signal) : Bool :=
  signals.any (fun s => decide (s.category = .data_exposure))

/-- Claim C5, trigger of rule p5: any tls-source high/medium Signal. -/
def spec_trig_update_tls (signals : List Signal) : Bool :=
  signals.any (fun s =>
    decide (s.evidence.source = "tls") &&
      (decide (s.severity = .high) || decide (s.severity = .medium)))

/-- Claim C5, trigger of rule p6: any non-low network Signal. -/
def spec_trig_review_network (signals : List Signal) : Bool :=
  signals.any (fun s => decide (s.category = .network) && !(decide (s.severity = .low)))

/-- Claim C5: the candidate decision list described by the claim, over
the actual scan data. -/
def spec_decision_list (signals : List Signal) (ai_keys ai_tools : List String) :
    List DecisionTemplate :=
  claim_build (!ai_keys.isEmpty) (spec_trig_patch_cves signals)
    (ai_tools.any is_agent_tool) (spec_trig_audit_data signals)
    (spec_trig_update_tls signals) (spec_trig_review_network signals)
    (!ai_tools.isEmpty)

/-! ## Concrete inputs for counterexamples and witnesses -/

/-- A concrete caught exception. -/
def sample_error : ProbeError := { message := "connection refused", error_type := "OSError" }

/-- A concrete critical-severity Signal. -/
def sample_critical_signal : Signal :=
  make_signal "github_private_key_leak" .github "Private key exposed in repository"
    .critical .data_exposure "github" none [] 0

/-- A certificate that expired 5 days before the probe time
`sample_now`: `notAfter` is 95 days in seconds, the probe runs at day
100. -/
def sample_expired_cert : TlsCert :=
  { issuer := "CN=R3", subject := "CN=example.com", subjectAltName := ["example.com"],
    notAfter := some (95 * 86400) }

/-- The probe time used with `sample_expired_cert`. -/
def sample_now : ℤ := 100 * 86400

/-- A tier context with a recent scan on a resolved decision. -/
def sample_tier : TierContext :=
  { has_latest_scan := true, resolved := true, is_recent := true }

/-- A verification context for a decision of action `audit-data` whose
domain has a latest scan with no data-exposure signals at all. -/
def sample_verif_ctx : VerifContext :=
  { tier := sample_tier
    has_domain := true
    latest_scan_signals := some []
    original_signals := [] }

/-- A pending decision, never verified. -/
def sample_pending_decision : DecisionState :=
  { status := .pending, verified_at := none, verification_status := none,
    confidence_score := none }

/-- A certificate still valid for 100 days at `sample_now`. -/
def sample_fresh_cert : TlsCert :=
  { issuer := "CN=R3", subject := "CN=example.com", subjectAltName := ["example.com"],
    notAfter := some (200 * 86400) }

/-- A certificate whose parse carried no notAfter field. -/
def sample_na_cert : TlsCert :=
  { issuer := "CN=R3", subject := "CN=example.com", subjectAltName := ["example.com"],
    notAfter := none }

-- Decidable equality of endpoint results, for concrete evaluation.
deriving instance DecidableEq for Except

/-! ## Theorems -/

theorem category_points_go (signals : List Signal) (acc : Category → ℕ) (c : Category) :
    List.foldl accumulate_points acc signals c = acc c + spec_category_points signals c := by
  induction signals generalizing acc with
  | nil => simp [spec_category_points]
  | cons s rest ih =>
      rw [List.foldl_cons, ih]
      by_cases h : c = s.category
      · subst h
        simp [accumulate_points, spec_category_points, List.filter_cons]
        omega
      · have h2 : ¬(s.category = c) := fun hh => h hh.symm
        simp [accumulate_points, spec_category_points, List.filter_cons, h, h2]

theorem category_points_eq (signals : List Signal) (c : Category) :
    category_points signals c = spec_category_points signals c := by
  unfold category_points
  rw [category_points_go]
  omega

theorem weight_eq_spec_weight (c : Category) : CATEGORY_WEIGHTS c = spec_weight c := by
  cases c <;> rfl

theorem label_eq_spec_label (n : ℕ) : severity_from_score n = spec_label n := rfl

/-- Claim C1: `score_signals` awards points per signal by severity (low
5, medium 15, high 30, critical 50), sums points per category, clamps
each category sum to 100, labels each category from the clamped sum (at
least 70 high, at least 40 medium, else low), and returns the aggregate
`round` of the weighted sum of clamped category sums with weights network
0.40, software 0.35, data_exposure 0.20, ai_integration 0.05, clamped to
100; as a Lean function it is pure and deterministic by construction. -/
theorem C1_score_signals_matches_spec (signals : List Signal) :
    score_signals signals =
      (spec_aggregate signals,
       CATEGORY_ORDER.map (fun c => (c, spec_category_score signals c))) := by
  have hp : ∀ c, category_points signals c = spec_category_points signals c :=
    fun c => category_points_eq signals c
  unfold score_signals spec_aggregate spec_category_score
  simp only [CATEGORY_ORDER, List.foldl_cons, List.foldl_nil, List.map_cons,
    List.map_nil, List.sum_cons, List.sum_nil, hp, weight_eq_spec_weight,
    label_eq_spec_label, Prod.mk.injEq]
  constructor
  · congr 2
    push_cast [Nat.cast_min]
    ring
  · rfl

theorem severity_weight_of_eq (s : Severity) :
    severity_weight_of s = spec_severity_weight s := by
  cases s <;> rfl

theorem likelihood_foldl_eq (signals : List Signal) (a : ℚ) :
    signals.foldl (fun acc s => acc + severity_weight_of s.severity) a
      = a + (signals.map (fun s => spec_severity_weight s.severity)).sum := by
  induction signals generalizing a with
  | nil => simp
  | cons s rest ih =>
      rw [List.foldl_cons, ih, severity_weight_of_eq]
      simp only [List.map_cons, List.sum_cons]
      ring

theorem pythonRound_intCast (n : ℤ) : pythonRound (n : ℚ) = n := by
  unfold pythonRound
  simp [Int.floor_intCast]

theorem sum_weights_twentieth (signals : List Signal) :
    IsTwentieth ((signals.map (fun s => spec_severity_weight s.severity)).sum) := by
  induction signals with
  | nil => exact ⟨0, by norm_num⟩
  | cons s rest ih =>
      obtain ⟨k, hk⟩ := ih
      simp only [List.map_cons, List.sum_cons, hk]
      cases s.severity
      case low => exact ⟨k + 1, by push_cast [spec_severity_weight]; ring⟩
      case medium => exact ⟨k + 2, by push_cast [spec_severity_weight]; ring⟩
      case high => exact ⟨k + 4, by push_cast [spec_severity_weight]; ring⟩
      case critical => exact ⟨k, by push_cast [spec_severity_weight]; ring⟩

theorem twentieth_min_one {q : ℚ} (h : IsTwentieth q) : IsTwentieth (min 1 q) := by
  obtain ⟨k, hk⟩ := h
  rcases le_total 1 q with h1 | h1
  · exact ⟨20, by rw [min_eq_left h1]; norm_num⟩
  · exact ⟨k, by rw [min_eq_right h1, hk]⟩

theorem roundTo2_twentieth {q : ℚ} (h : IsTwentieth q) : roundTo2 q = q := by
  obtain ⟨k, hk⟩ := h
  subst hk
  unfold roundTo2
  have h100 : ((k : ℚ)/20) * 100 = ((5 * k : ℤ) : ℚ) := by push_cast; ring
  rw [h100, pythonRound_intCast]
  push_cast
  ring

/-- Claim C2, amended: `estimate_likelihoods` returns as
`breach_likelihood_30d` not the clamped severity-weighted sum itself, but
that sum plus 0.05, clamped to 1.0 (the code adds a 0.05 baseline and its
round-to-2-decimals is the identity on these values); the 90d value is
`min(1.0, 30d + 0.10)` as claimed. -/
theorem C2_likelihoods_amended (signals : List Signal) :
    (estimate_likelihoods signals).1 = min 1 (spec_likelihood_30d signals + 5/100)
    ∧ (estimate_likelihoods signals).2
        = min 1 ((estimate_likelihoods signals).1 + 1/10) := by
  unfold estimate_likelihoods spec_likelihood_30d
  rw [likelihood_foldl_eq]
  simp only [zero_add]
  obtain ⟨k, hk⟩ :=
    twentieth_min_one (sum_weights_twentieth signals)
  rw [hk]
  have hkq : (k : ℚ)/20 ≤ 1 := by
    rw [← hk]
    exact min_le_left _ _
  have hk20 : k ≤ 20 := by
    have h1 : (k : ℚ) ≤ 20 := by linarith
    exact_mod_cast h1
  have h30 : roundTo2 (min 1 ((k : ℚ)/20 + 5/100)) = min 1 ((k : ℚ)/20 + 5/100) := by
    refine roundTo2_twentieth (twentieth_min_one ⟨k + 1, ?_⟩)
    push_cast
    ring
  have h90 : roundTo2 (min 1 ((k : ℚ)/20 + 15/100)) = min 1 ((k : ℚ)/20 + 15/100) := by
    refine roundTo2_twentieth (twentieth_min_one ⟨k + 3, ?_⟩)
    push_cast
    ring
  refine ⟨h30, ?_⟩
  rw [h90, h30]
  rcases Nat.lt_or_ge k 20 with hlt | hge
  · have hle19 : (k : ℚ) ≤ 19 := by exact_mod_cast Nat.lt_succ_iff.mp hlt
    have h1 : (k : ℚ)/20 + 5/100 ≤ 1 := by linarith
    rw [min_eq_right h1]
    have e : (k : ℚ)/20 + 15/100 = ((k : ℚ)/20 + 5/100) + 1/10 := by ring
    rw [e]
  · have hk20e : k = 20 := le_antisymm hk20 hge
    subst hk20e
    norm_num [min_def]

/-- Claim C2, counterexample: on the empty signal list the code returns
0.05 as `breach_likelihood_30d`, while the claim (clamped weighted sum)
predicts 0. -/
theorem C2_counterexample :
    (estimate_likelihoods []).1 ≠ spec_likelihood_30d [] := by
  norm_num [estimate_likelihoods, spec_likelihood_30d, roundTo2, pythonRound, min_def]

/-- Claim C9: `estimate_likelihoods` gives weight 0 to critical-severity
Signals: appending a critical Signal changes neither likelihood. -/
theorem C9_likelihood_ignores_critical (signals : List Signal) (s : Signal)
    (h : s.severity = .critical) :
    estimate_likelihoods (signals ++ [s]) = estimate_likelihoods signals := by
  unfold estimate_likelihoods
  rw [List.foldl_append]
  simp [h, severity_weight_of, severity_weights]

/-- Witness for C9 at a concrete critical Signal. -/
theorem C9_witness :
    sample_critical_signal.severity = .critical ∧
      estimate_likelihoods ([] ++ [sample_critical_signal]) = estimate_likelihoods [] :=
  ⟨rfl, C9_likelihood_ignores_critical [] sample_critical_signal rfl⟩

theorem calculate_confidence_in_tier_set (a : Option ℤ) (r : ℤ) (g : Bool) :
    InTierSet (calculate_confidence a r g).1 := by
  unfold calculate_confidence InTierSet
  rcases a with _ | d
  · simp
  · dsimp only
    split_ifs <;> simp

theorem tier_in_tier_set (t : TierContext) (g : Bool) :
    InTierSet (calculate_confidence_tier t g).1 := by
  rcases t with ⟨hls, hr, hir⟩
  cases hls <;> cases hr <;> cases hir <;> cases g <;>
    simp [calculate_confidence_tier, InTierSet]

theorem dispatch_conf_in_verif_set (action : VerifAction) (v : VerifContext) :
    InVerifConfSet (dispatch_verification action v).2 := by
  cases action with
  | update_tls =>
      simp only [dispatch_verification, verify_tls_fixed]
      split_ifs <;> simp [InVerifConfSet, InTierSet]
  | patch_cves =>
      simp only [dispatch_verification, verify_cve_patched]
      split
      · simp [InVerifConfSet, InTierSet]
      · split_ifs
        all_goals first
          | exact Or.inl (tier_in_tier_set _ _)
          | simp [InVerifConfSet, InTierSet]
  | audit_data =>
      simp only [dispatch_verification, verify_data_exposure]
      split
      · simp [InVerifConfSet, InTierSet]
      · split_ifs
        all_goals first
          | exact Or.inl (tier_in_tier_set _ _)
          | simp [InVerifConfSet, InTierSet]
  | review_network =>
      simp only [dispatch_verification, verify_network_issues]
      split
      · simp [InVerifConfSet, InTierSet]
      · split_ifs
        all_goals first
          | exact Or.inl (tier_in_tier_set _ _)
          | simp [InVerifConfSet, InTierSet]
  | no_rule =>
      simp [dispatch_verification, InVerifConfSet, InTierSet]

/-- Claim C3, amended: the impact-service confidence
(`calculate_confidence`) and the verification tier ladder
(`calculate_confidence_tier`) only ever produce values in
0.2, 0.4, 0.7, 1.0; but the verification rules themselves additionally
hard-code 0.8 (patch-cves fail) and 0.9 (the pass-with-zero-count
branches of audit-data and review-network), so verification-run
confidences range over 0.2, 0.4, 0.7, 0.8, 0.9, 1.0. The update-tls rule
always returns ("unknown", 0.2): its probe call names the nonexistent
`tls_service.check_tls` and raises on every invocation, so its hard-coded
0.6 and 0.9 branches are dead code. -/
theorem C3_confidence_values_amended :
    (∀ (a : Option ℤ) (r : ℤ) (g : Bool), InTierSet (calculate_confidence a r g).1)
    ∧ (∀ (t : TierContext) (g : Bool), InTierSet (calculate_confidence_tier t g).1)
    ∧ (∀ b : Bool, verify_tls_fixed b = (.unknown, 2/10))
    ∧ (∀ (action : VerifAction) (v : VerifContext),
        InVerifConfSet (dispatch_verification action v).2) :=
  ⟨calculate_confidence_in_tier_set, tier_in_tier_set,
   fun b => by unfold verify_tls_fixed; split_ifs <;> rfl,
   dispatch_conf_in_verif_set⟩

/-- Claim C3, counterexample: `verify_data_exposure` on a decision whose
latest scan exists and shows zero data-exposure signals (zero before as
well) takes the pass-with-zero-count branch and reports confidence 0.9,
which is outside the claimed set of exactly 0.2, 0.4, 0.7, 1.0;
`run_verification` stores 0.9 on the DecisionVerificationRun and, the
result being a pass, copies it onto the Decision as confidence_score. -/
theorem C3_counterexample :
    (run_verification sample_pending_decision .audit_data sample_verif_ctx 0).2.2 = 9/10
    ∧ (run_verification sample_pending_decision .audit_data sample_verif_ctx 0).1.confidence_score
        = some (9/10)
    ∧ ¬ InTierSet ((9 : ℚ)/10) := by
  refine ⟨?_, ?_, ?_⟩
  · norm_num [run_verification, dispatch_verification, verify_data_exposure,
      sample_verif_ctx, sample_tier]
  · norm_num [run_verification, run_verification_update, dispatch_verification,
      verify_data_exposure, sample_verif_ctx, sample_tier, sample_pending_decision]
  · norm_num [InTierSet]

theorem update_status_verified_needs_resolved (current requested : DStatus) :
    update_decision_status current requested = .ok .verified → current = .resolved := by
  cases current <;> cases requested <;> decide

theorem auto_verify_needs_resolved (status : DStatus) (v r : Option ℤ)
    (sc : ℤ) (g : Bool) (h : auto_verify_decision status v r sc g = .verified) :
    status = .resolved ∨ status = .verified := by
  unfold auto_verify_decision at h
  by_cases h1 : status = .resolved ∧ v = none
  · exact Or.inl h1.1
  · rw [if_neg h1] at h
    exact Or.inr h

theorem run_verification_pass_sets_verified (d : DecisionState)
    (action : VerifAction) (v : VerifContext) (now : ℤ)
    (h : (dispatch_verification action v).1 = .pass) :
    (run_verification d action v now).1.status = .verified := by
  simp [run_verification, run_verification_update, h]

/-- Claim C4, amended: the status-update endpoint accepts `verified` only
when the current status is `resolved`, and auto-verification only
advances decisions that are currently `resolved`; but `run_verification`
sets `status = verified` on any pass result with no check of the current
status, so a Decision can become verified without ever having been
resolved. -/
theorem C4_verified_transitions_amended :
    (∀ current requested, update_decision_status current requested = .ok .verified →
        current = .resolved)
    ∧ (∀ status v r sc g, auto_verify_decision status v r sc g = .verified →
        status = .resolved ∨ status = .verified)
    ∧ (∀ (d : DecisionState) (action : VerifAction) (vc : VerifContext) (now : ℤ),
        (dispatch_verification action vc).1 = .pass →
        (run_verification d action vc now).1.status = .verified) :=
  ⟨update_status_verified_needs_resolved, auto_verify_needs_resolved,
   run_verification_pass_sets_verified⟩

/-- Witness for the amended C4 at concrete inputs. -/
theorem C4_amended_witness :
    DStatus.resolved = DStatus.resolved
    ∧ (DStatus.resolved = DStatus.resolved ∨ DStatus.resolved = DStatus.verified)
    ∧ (run_verification sample_pending_decision .audit_data sample_verif_ctx 0).1.status
        = .verified :=
  ⟨C4_verified_transitions_amended.1 .resolved .verified (by rfl),
   C4_verified_transitions_amended.2.1 .resolved none none 0 true (by decide),
   C4_verified_transitions_amended.2.2 sample_pending_decision .audit_data
     sample_verif_ctx 0 (by decide)⟩

/-- Claim C4, counterexample: `run_verification` on a decision with
status `pending` (never resolved), action `audit-data`, and a latest scan
with no data-exposure signals yields a pass and sets the decision status
straight to `verified`. -/
theorem C4_counterexample :
    (run_verification sample_pending_decision .audit_data sample_verif_ctx 0).1.status
        = .verified
    ∧ sample_pending_decision.status ≠ .resolved := by
  constructor
  · decide
  · decide

theorem filter_length_pos_iff_any {α : Type} (l : List α) (p : α → Bool) :
    0 < (l.filter p).length ↔ l.any p = true := by
  induction l with
  | nil => simp
  | cons a t ih =>
      by_cases h : p a = true
      · simp [List.filter_cons, h]
      · simp [List.filter_cons, h, ih]

theorem any_eq_decide_filter {α : Type} (l : List α) (p : α → Bool) :
    l.any p = decide (0 < (l.filter p).length) := by
  by_cases h : l.any p = true
  · rw [h]
    symm
    rw [decide_eq_true_eq]
    exact (filter_length_pos_iff_any l p).mpr h
  · rw [Bool.not_eq_true] at h
    rw [h]
    symm
    rw [decide_eq_false_iff_not]
    intro hpos
    have hany := (filter_length_pos_iff_any l p).mp hpos
    rw [h] at hany
    exact Bool.false_ne_true hany

theorem not_isEmpty_eq_decide {α : Type} (l : List α) :
    (!l.isEmpty) = decide (0 < l.length) := by
  cases l <;> simp

theorem generate_eq_spec_list (signals : List Signal) (ai_keys ai_tools : List String) :
    generate_decisions_for_scan signals ai_keys ai_tools =
      spec_decision_list signals ai_keys ai_tools := by
  unfold generate_decisions_for_scan spec_decision_list claim_build
  unfold spec_trig_patch_cves spec_trig_audit_data spec_trig_update_tls
    spec_trig_review_network
  simp only [any_eq_decide_filter, not_isEmpty_eq_decide, Bool.and_eq_true,
    decide_eq_true_eq]
  by_cases h1 : 0 < ai_keys.length <;>
  by_cases h2 : 0 < (signals.filter (fun s =>
    decide (s.category = .software) && decide (s.severity = .high))).length <;>
  by_cases h3 : 0 < (ai_tools.filter is_agent_tool).length <;>
  by_cases h4 : 0 < (signals.filter (fun s => decide (s.category = .data_exposure))).length <;>
  by_cases h5 : 0 < (signals.filter (fun s =>
    decide (s.evidence.source = "tls") &&
      (decide (s.severity = .high) || decide (s.severity = .medium)))).length <;>
  by_cases h6 : 0 < (signals.filter (fun s =>
    decide (s.category = .network) && !(decide (s.severity = .low)))).length <;>
  by_cases h7 : 0 < ai_tools.length <;>
  simp [h1, h2, h3, h4, h5, h6, h7, sort_by_priority, insert_by_priority,
    key_rotation_template, patch_cves_template, review_agents_template,
    audit_data_template, update_tls_template, review_network_template,
    audit_ai_tools_template]

/-- Claim C5: decision generation is a deterministic function of the
scan signals and AI-scan data; each of the seven rules fires exactly on
its trigger (key-rotation p1 on any AI key leak; patch-cves p2 on any
software/high Signal; review-agents p3 on any agent-keyword AI tool;
audit-data p4 on any data_exposure Signal; update-tls p5 on any
tls-source high/medium Signal; review-network p6 on any non-low network
Signal only when fewer than 3 decisions exist so far; audit-ai-tools p7
on any AI tool only when fewer than 3); the output is the first 3 of the
ascending-priority candidate list; and every persisted Decision has
status pending with before_score equal to the scan risk_score. -/
theorem C5_decision_generation_matches_claim (signals : List Signal)
    (ai_keys ai_tools : List String) (risk_score : ℤ) :
    generate_decisions signals ai_keys ai_tools risk_score
      = (spec_decision_list signals ai_keys ai_tools).map (persist_decision risk_score)
    ∧ ∀ d ∈ generate_decisions signals ai_keys ai_tools risk_score,
        d.status = "pending" ∧ d.before_score = risk_score := by
  constructor
  · unfold generate_decisions
    rw [generate_eq_spec_list]
  · intro d hd
    unfold generate_decisions at hd
    rcases List.mem_map.mp hd with ⟨t, _, rfl⟩
    exact ⟨rfl, rfl⟩

/-- Witness for C5 at a concrete input: one leaked AI key generates the
key-rotation decision, persisted as pending with the scan risk score. -/
theorem C5_witness :
    (persist_decision 50 key_rotation_template).status = "pending"
    ∧ (persist_decision 50 key_rotation_template).before_score = 50 :=
  (C5_decision_generation_matches_claim [] ["sk-abc123"] [] 50).2
    (persist_decision 50 key_rotation_template) (by decide)

/-- The per-category points of the clean-domain scan: 5 in software
(from the synthetic low Signal), 0 elsewhere. -/
theorem clean_domain_points (now : ℤ) :
    category_points [no_findings_signal now] = fun c =>
      if c = Category.software then 5 else 0 := by
  funext c
  cases c <;> rfl

theorem clean_domain_score (now : ℤ) :
    (score_signals [no_findings_signal now]).1 = 2 := by
  unfold score_signals
  rw [clean_domain_points]
  simp only [CATEGORY_ORDER, List.foldl_cons, List.foldl_nil]
  have hn : (Category.network = Category.software) = False := by simp
  have hd : (Category.data_exposure = Category.software) = False := by simp
  have ha : (Category.ai_integration = Category.software) = False := by simp
  have hs : (Category.software = Category.software) = True := by simp
  have h0 : (min 100 0 : ℕ) = 0 := min_eq_right (by norm_num)
  have h5 : (min 100 5 : ℕ) = 5 := min_eq_right (by norm_num)
  simp only [hn, hd, ha, hs, if_false, if_true, h0, h5]
  have htot : ((0 : ℚ) + (0 : ℕ) * CATEGORY_WEIGHTS Category.network
      + (5 : ℕ) * CATEGORY_WEIGHTS Category.software
      + (0 : ℕ) * CATEGORY_WEIGHTS Category.data_exposure
      + (0 : ℕ) * CATEGORY_WEIGHTS Category.ai_integration) = 7/4 := by
    norm_num [CATEGORY_WEIGHTS]
  rw [htot]
  have hr : pythonRound (7/4) = 2 := by
    unfold pythonRound
    norm_num
  rw [hr]
  norm_num

theorem clean_domain_likelihoods (now : ℤ) :
    (estimate_likelihoods [no_findings_signal now]).1 = 1/10
    ∧ (estimate_likelihoods [no_findings_signal now]).2 = 1/5 := by
  unfold estimate_likelihoods
  rw [likelihood_foldl_eq]
  dsimp only
  have hsum : ((List.map (fun s => spec_severity_weight s.severity)
      [no_findings_signal now]).sum) = 5/100 := by
    simp [no_findings_signal, make_signal, spec_severity_weight]
  rw [hsum]
  have hmin1 : min (1 : ℚ) (0 + 5/100) = 5/100 := by norm_num
  rw [hmin1]
  have hmin2 : min (1 : ℚ) (5/100 + 5/100) = 1/10 := by norm_num
  have hmin3 : min (1 : ℚ) (5/100 + 15/100) = 1/5 := by norm_num
  rw [hmin2, hmin3]
  rw [roundTo2_twentieth ⟨2, by norm_num⟩, roundTo2_twentieth ⟨4, by norm_num⟩]
  exact ⟨rfl, rfl⟩

/-- Claim C6, counterexample: when the merged signal list is empty the
orchestrator appends the synthetic low/software no-findings Signal, which
is worth 5 points in category software; the aggregate risk score is
round(5 x 0.35) = 2, not 0 as the claim states. -/
theorem C6_counterexample :
    (score_signals (finalize_signals [] 0)).1 = 2 ∧ ((2 : ℤ) ≠ 0) :=
  ⟨clean_domain_score 0, by norm_num⟩

/-- Claim C6, amended: when every probe returns no findings the
orchestrator appends a synthetic `scan_completed_no_findings` Signal of
severity low (category software); the resulting scan has risk_score 2
(the synthetic signal scores 5 points, weighted 0.35 and rounded), the
likelihoods satisfy 0 <= 30d <= 90d, and decision generation for that
scan returns the empty set. -/
theorem C6_clean_domain_amended (now : ℤ) :
    finalize_signals [] now = [no_findings_signal now]
    ∧ (score_signals (finalize_signals [] now)).1 = 2
    ∧ 0 ≤ (estimate_likelihoods (finalize_signals [] now)).1
    ∧ (estimate_likelihoods (finalize_signals [] now)).1
        ≤ (estimate_likelihoods (finalize_signals [] now)).2
    ∧ generate_decisions_for_scan (finalize_signals [] now) [] [] = [] := by
  have hfin : finalize_signals [] now = [no_findings_signal now] := rfl
  obtain ⟨h30, h90⟩ := clean_domain_likelihoods now
  refine ⟨hfin, ?_, ?_, ?_, ?_⟩
  · rw [hfin, clean_domain_score]
  · rw [hfin, h30]
    norm_num
  · rw [hfin, h30, h90]
    norm_num
  · rw [hfin, generate_eq_spec_list]
    simp [spec_decision_list, claim_build, spec_trig_patch_cves, spec_trig_audit_data,
      spec_trig_update_tls, spec_trig_review_network, no_findings_signal, make_signal,
      is_agent_tool]

/-- Claim C7, amended: every orchestrator wrapper absorbs any probe
exception, returning empty metadata plus exactly one service-error
Signal whose source is the lowercased probe name, with severity low and
raw evidence containing error, error_type and service; the category is
the one the orchestrator assigns per probe (network for DNS, HTTP, TLS,
CT and OTX; software for CVE; ai_integration for GitHub) - the legacy
category enumeration has no infrastructure value, and the legacy Signal
schema carries no detection_method field. -/
theorem C7_service_error_amended :
    (∀ (e : ProbeError) (now : ℤ),
        safe_fetch_dns (.error e) now
          = ([], [make_service_error_signal "DNS" e .network now]))
    ∧ (∀ (e : ProbeError) (now : ℤ),
        safe_fetch_http (.error e) now
          = ([], [make_service_error_signal "HTTP" e .network now], []))
    ∧ (∀ (e : ProbeError) (now : ℤ),
        safe_fetch_tls (.error e) now
          = ([], [make_service_error_signal "TLS" e .network now]))
    ∧ (∀ (e : ProbeError) (now : ℤ),
        safe_fetch_ct (.error e) now
          = ([], [make_service_error_signal "CT" e .network now]))
    ∧ (∀ (e : ProbeError) (now : ℤ),
        safe_fetch_otx (.error e) now
          = ([], [make_service_error_signal "OTX" e .network now]))
    ∧ (∀ (tokens : List String) (e : ProbeError) (now : ℤ),
        tokens.isEmpty = false →
        safe_fetch_cves tokens (.error e) now
          = ([], [make_service_error_signal "CVE" e .software now]))
    ∧ (∀ (org : String) (e : ProbeError) (now : ℤ),
        org ≠ "" →
        safe_fetch_github org (.error e) now
          = ([], [make_service_error_signal "GitHub" e .ai_integration now]))
    ∧ (∀ (name : String) (e : ProbeError) (cat : Category) (now : ℤ),
        (make_service_error_signal name e cat now).severity = .low
        ∧ (make_service_error_signal name e cat now).evidence.source = lowerStr name
        ∧ (make_service_error_signal name e cat now).category = cat
        ∧ ("error", e.message) ∈ (make_service_error_signal name e cat now).evidence.raw
        ∧ ("error_type", e.error_type)
            ∈ (make_service_error_signal name e cat now).evidence.raw
        ∧ ("service", name) ∈ (make_service_error_signal name e cat now).evidence.raw) := by
  refine ⟨fun e now => rfl, fun e now => rfl, fun e now => rfl, fun e now => rfl,
    fun e now => rfl, ?_, ?_, ?_⟩
  · intro tokens e now h
    unfold safe_fetch_cves
    rw [h]
    rfl
  · intro org e now h
    unfold safe_fetch_github
    rw [if_neg h]
  · intro name e cat now
    refine ⟨rfl, rfl, rfl, ?_, ?_, ?_⟩ <;>
      simp [make_service_error_signal, make_signal]

/-- Witness for the amended C7 at concrete inputs with hypotheses. -/
theorem C7_witness :
    safe_fetch_cves ["react"] (.error sample_error) 0
        = ([], [make_service_error_signal "CVE" sample_error .software 0])
    ∧ safe_fetch_github "acme" (.error sample_error) 0
        = ([], [make_service_error_signal "GitHub" sample_error .ai_integration 0]) := by
  obtain ⟨_, _, _, _, _, h6, h7, _⟩ := C7_service_error_amended
  exact ⟨h6 ["react"] sample_error 0 (by decide), h7 "acme" sample_error 0 (by decide)⟩

/-- Claim C7, counterexample: the service-error Signal of the DNS wrapper
carries category network, not infrastructure (infrastructure is not even
a value of the legacy category enumeration the Signal schema uses). -/
theorem C7_counterexample :
    (safe_fetch_dns (.error sample_error) 0).2
        = [make_service_error_signal "DNS" sample_error .network 0]
    ∧ categoryName (make_service_error_signal "DNS" sample_error .network 0).category
        = "network"
    ∧ ("network" : String) ≠ "infrastructure" :=
  ⟨rfl, rfl, by decide⟩

/-- Claim C8, counterexample: an expired certificate (5 days past
expiry) yields the single `tls_expiring_soon` Signal with severity high,
not critical as the claimed ladder requires. -/
theorem C8_counterexample :
    ((fetch_tls_metadata "example.com" (.ok sample_expired_cert) sample_now).2.map
        (fun s => (s.id, s.severity)))
      = [("tls_expiring_soon", Severity.high)]
    ∧ Severity.high ≠ .critical := by
  constructor
  · decide
  · decide

/-- Claim C8, amended: the TLS probe implements no severity ladder: any
certificate fewer than 30 days from expiry (expired ones included)
produces exactly one `tls_expiring_soon` Signal of severity high, a
certificate at 30 days or more (or with no notAfter field) produces no
signal, and a connection failure produces one `tls_unreachable` Signal
of severity high. -/
theorem C8_tls_severity_amended (domain : String) (now : ℤ) :
    (∀ e : ProbeError,
        ((fetch_tls_metadata domain (.error e) now).2.map (fun s => (s.id, s.severity)))
          = [("tls_unreachable", Severity.high)])
    ∧ (∀ (cert : TlsCert) (expiry : ℤ), cert.notAfter = some expiry →
        Int.fdiv (expiry - now) 86400 < 30 →
        ((fetch_tls_metadata domain (.ok cert) now).2.map (fun s => (s.id, s.severity)))
          = [("tls_expiring_soon", Severity.high)])
    ∧ (∀ (cert : TlsCert) (expiry : ℤ), cert.notAfter = some expiry →
        ¬ Int.fdiv (expiry - now) 86400 < 30 →
        (fetch_tls_metadata domain (.ok cert) now).2 = [])
    ∧ (∀ cert : TlsCert, cert.notAfter = none →
        (fetch_tls_metadata domain (.ok cert) now).2 = []) := by
  refine ⟨fun e => rfl, ?_, ?_, ?_⟩
  · intro cert expiry hna hdays
    unfold fetch_tls_metadata
    dsimp only
    rw [hna]
    dsimp only
    rw [if_pos hdays]
    simp [make_signal]
  · intro cert expiry hna hdays
    unfold fetch_tls_metadata
    dsimp only
    rw [hna]
    dsimp only
    rw [if_neg hdays]
  · intro cert hna
    unfold fetch_tls_metadata
    dsimp only
    rw [hna]

/-- Witness for the amended C8 at concrete certificates. -/
theorem C8_witness :
    ((fetch_tls_metadata "example.com" (.ok sample_expired_cert) sample_now).2.map
        (fun s => (s.id, s.severity)))
      = [("tls_expiring_soon", Severity.high)]
    ∧ (fetch_tls_metadata "example.com" (.ok sample_fresh_cert) sample_now).2 = []
    ∧ (fetch_tls_metadata "example.com" (.ok sample_na_cert) sample_now).2 = [] := by
  obtain ⟨_, h2, h3, h4⟩ := C8_tls_severity_amended "example.com" sample_now
  exact ⟨h2 sample_expired_cert (95 * 86400) rfl (by decide),
    h3 sample_fresh_cert (200 * 86400) rfl (by decide),
    h4 sample_na_cert rfl⟩

theorem emit_event_go (event_type : String)
    (deliver : Webhook → Except ProbeError WebhookDelivery)
    (l : List Webhook) (acc : List WebhookDelivery) :
    l.foldl
      (fun deliveries w =>
        if event_type ∈ w.events then
          match deliver w with
          | .ok d => deliveries ++ [d]
          | .error _ => deliveries
        else deliveries)
      acc
    = acc ++ (l.filter (fun w => decide (event_type ∈ w.events))).filterMap
        (fun w => (deliver w).toOption) := by
  induction l generalizing acc with
  | nil => simp
  | cons w t ih =>
      rw [List.foldl_cons]
      by_cases h : event_type ∈ w.events
      · rw [if_pos h]
        cases hd : deliver w with
        | ok d =>
            rw [ih]
            simp [List.filter_cons, h, hd, Except.toOption, List.filterMap_cons]
        | error err =>
            rw [ih]
            simp [List.filter_cons, h, hd, Except.toOption, List.filterMap_cons]
      · rw [if_neg h, ih]
        simp [List.filter_cons, h]

/-- Claim C10: `emit_event` dispatches exactly to the enabled webhooks
whose subscribed event set contains the event type; a delivery exception
for one webhook is swallowed (its record is simply absent) and neither
prevents the remaining deliveries nor escapes `emit_event`, which is a
total function of the webhook list and the delivery outcomes. -/
theorem C10_emit_event_isolation (webhooks : List Webhook) (event_type : String)
    (deliver : Webhook → Except ProbeError WebhookDelivery) :
    emit_event webhooks event_type deliver
      = (webhooks.filter
            (fun w => w.enabled && decide (event_type ∈ w.events))).filterMap
          (fun w => (deliver w).toOption) := by
  unfold emit_event
  rw [emit_event_go]
  rw [List.nil_append]
  rw [List.filter_filter]
  congr 1
  apply List.filter_congr
  intro a _
  rw [Bool.and_comm]
